import Mathlib

/-!
Verification of the ADKbot chat front-end configuration surface.

The repository consists of a Next.js proxy route (`src/app/api/copilotkit/route.ts`)
and three React components: a root layout and two page variants, each mounting a
`CopilotKit` provider around a `CopilotChat` component.  All logic of the
repository's own code is static configuration: agent identifiers, runtime URLs,
labels, and suggestion lists.  We embed that configuration shallowly and prove
the consistency properties the specification states about it.
-/

namespace ADKbot

/-- The environment variables read by the repository's code.  The only one read
anywhere is `NEXT_PUBLIC_API_BASE_URL` (in the env-driven page variant); its
value is `string | undefined` in TypeScript, hence `Option String` here. -/
structure Env where
  NEXT_PUBLIC_API_BASE_URL : Option String
deriving DecidableEq, Repr

/-- `HttpAgent` from `@ag-ui/client`, as configured by the route: the repository
only ever supplies its `url` field. -/
structure HttpAgent where
  url : String
deriving DecidableEq, Repr

/-- `CopilotRuntime` from `@copilotkit/runtime`, as configured by the route: an
association of agent-name keys to `HttpAgent` records. -/
structure CopilotRuntime where
  agents : List (String × HttpAgent)
deriving DecidableEq, Repr

/-- `ExperimentalEmptyAdapter` from `@copilotkit/runtime`: constructed with no
arguments; the repository passes it through unchanged, so it carries no data. -/
structure ExperimentalEmptyAdapter where
deriving DecidableEq, Repr

/-- An inbound `NextRequest`, abstracted to its payload: the route's own code
never inspects it. -/
structure NextRequest where
  payload : String
deriving DecidableEq, Repr

/-- An outbound network call: target URL and the payload sent to it. -/
structure OutboundCall where
  url : String
  payload : String
deriving DecidableEq, Repr

/-- The outcome of the external runtime handling a request: either a response
body or a failure.  The repository's own code never constructs, inspects, or
intercepts these. -/
inductive ExternalOutcome where
  | success (body : String)
  | failure (error : String)
deriving DecidableEq, Repr

/-- The props the repository passes to the `CopilotKit` provider.  `runtimeUrl`
is `Option String` because the env-driven variant passes a possibly-undefined
environment value; `showDevConsole` is `none` where the prop is not passed. -/
structure CopilotKitProps where
  runtimeUrl : Option String
  showDevConsole : Option Bool
  agent : String
deriving DecidableEq, Repr

/-- One entry of a `CopilotChat` suggestion list: a title and a message. -/
structure Suggestion where
  title : String
  message : String
deriving DecidableEq, Repr

/-- The props the repository passes to the `CopilotChat` component. -/
structure CopilotChatProps where
  className : String
  initialLabel : String
  suggestions : List Suggestion
deriving DecidableEq, Repr

/-! ## The proxy route, `src/app/api/copilotkit/route.ts` -/

/-- `const serviceAdapter = new ExperimentalEmptyAdapter()` (route.ts line 9). -/
def serviceAdapter : ExperimentalEmptyAdapter := {}

/-- `const runtime = new CopilotRuntime({ agents: { "my_agent": new HttpAgent({url:
"https://adkbotbackend.onrender.com"}) } })` (route.ts lines 11-15): a module-level
constant built from literals. -/
def runtime : CopilotRuntime :=
  { agents := [("my_agent", { url := "https://adkbotbackend.onrender.com" })] }

/-- Modelled from the spec: `copilotRuntimeNextJSAppRouterEndpoint(...).handleRequest`
is code of the external `@copilotkit/runtime` library, absent from this repository.
Per the spec it accepts the inbound request and forwards it, via exactly one
outbound call, to the statically configured remote agent at its fixed URL, with
no request mutation, returning whatever outcome the remote exchange produces.
The network itself is abstracted as the function `remote` from target URL and
payload to outcome; the result pairs the outcome with the list of outbound calls
made. -/
def handleRequest (rt : CopilotRuntime) (_sa : ExperimentalEmptyAdapter)
    (_endpoint : String) (remote : String → String → ExternalOutcome)
    (req : NextRequest) : ExternalOutcome × List OutboundCall :=
  match rt.agents with
  | [] => (.failure "no agent registered", [])
  | (_, agent) :: _ =>
      (remote agent.url req.payload, [{ url := agent.url, payload := req.payload }])

/-- The exported `POST` handler (route.ts lines 17-25): it constructs the endpoint
handler bound to the module-level `runtime`, `serviceAdapter` and the endpoint
path `"/api/copilotkit"`, and returns `handleRequest(req)` directly — no
validation, no transformation, no try/catch. -/
def POST (remote : String → String → ExternalOutcome) (req : NextRequest) :
    ExternalOutcome × List OutboundCall :=
  handleRequest runtime serviceAdapter "/api/copilotkit" remote req

/-- The route module's state: the two module-level constants.  The module has no
other bindings; this makes the (absence of) mutation by `POST` explicit. -/
structure ModuleState where
  runtime : CopilotRuntime
  serviceAdapter : ExperimentalEmptyAdapter
deriving DecidableEq, Repr

/-- The module state as created at module load, from the literal constants. -/
def initialModuleState : ModuleState :=
  { runtime := runtime, serviceAdapter := serviceAdapter }

/-- `POST` in explicit state-passing form: the source's handler body only reads
the module constants, so the state is returned unchanged. -/
def POSTst (st : ModuleState) (remote : String → String → ExternalOutcome)
    (req : NextRequest) : (ExternalOutcome × List OutboundCall) × ModuleState :=
  (handleRequest st.runtime st.serviceAdapter "/api/copilotkit" remote req, st)

/-! ## The root layout, `src/app/layout.tsx` -/

namespace RootLayout

/-- The `metadata` export: title and description. -/
def metadata : String × String := ("HLH Agent", "HLH Agent")

/-- The `CopilotKit` props in `RootLayout` (layout line 20):
`runtimeUrl="/api/copilotkit" agent="my_agent"`, no `showDevConsole` prop. -/
def copilotKitProps : CopilotKitProps :=
  { runtimeUrl := some "/api/copilotkit", showDevConsole := none, agent := "my_agent" }

end RootLayout

/-! ## The env-driven page variant (`part_000`) -/

namespace EnvPage

/-- The `CopilotKit` props in this variant's `Page`: `runtimeUrl` is
`process.env.NEXT_PUBLIC_API_BASE_URL`, `showDevConsole={false}`,
`agent="my_agent"`. -/
def copilotKitProps (env : Env) : CopilotKitProps :=
  { runtimeUrl := env.NEXT_PUBLIC_API_BASE_URL
    showDevConsole := some false
    agent := "my_agent" }

/-- The initializer of the `Chat` component's only `useState` hook. -/
def chatBackgroundInit : String := "var(--copilot-kit-background-color)"

/-- The state-updating callbacks the `Chat` component registers anywhere in its
body.  The source does not even bind the setter returned by `useState`, so the
list is empty. -/
def backgroundUpdaters : List (String → String) := []

/-- The caption `<div>` rendered above the chat component in this variant. -/
def captionText : Option String := some "Sample suggestions:"

/-- The `CopilotChat` props in this variant's `Chat`. -/
def copilotChatProps : CopilotChatProps :=
  { className := "h-full rounded-2xl max-w-6xl mx-auto"
    initialLabel :=
      "Please enter a hospital name to find its CCN or a NPI to find the hospital type."
    suggestions :=
      [ { title := "Find CCN for Bayonne Medical Center"
          message := "Find CCN for Bayonne Medical Center" },
        { title := "Find hospital type for 1104144641"
          message := "Find hospital type for 1104144641" } ] }

end EnvPage

/-! ## The proxy-path page variant (`part_002`) -/

namespace ProxyPage

/-- The `CopilotKit` props in this variant's `Page`: `runtimeUrl="/api/copilotkit"`
(a literal), `showDevConsole={false}`, `agent="my_agent"`. -/
def copilotKitProps : CopilotKitProps :=
  { runtimeUrl := some "/api/copilotkit"
    showDevConsole := some false
    agent := "my_agent" }

/-- The initializer of the `Chat` component's only `useState` hook. -/
def chatBackgroundInit : String := "var(--copilot-kit-background-color)"

/-- The state-updating callbacks the `Chat` component registers anywhere in its
body.  The source binds `setBackground` but no code path ever calls it, so the
list is empty. -/
def backgroundUpdaters : List (String → String) := []

/-- This variant renders no caption above the chat component. -/
def captionText : Option String := none

/-- The `CopilotChat` props in this variant's `Chat`. -/
def copilotChatProps : CopilotChatProps :=
  { className := "h-full rounded-2xl max-w-6xl mx-auto"
    initialLabel :=
      "Please enter a hospital name to find its CCN or a NPI to find the hospital type."
    suggestions :=
      [ { title := "Find CCN for Bayonne Medical Center"
          message := "Find CCN for Bayonne Medical Center" },
        { title := "Find hospital type for 1104144641"
          message := "Find hospital type for 1104144641" } ] }

end ProxyPage

/-! ## Whole-application configuration as a function of the environment -/

/-- Everything the repository configures, assembled as a function of the
environment: the environment is read exactly where the source reads
`process.env`, i.e. only in the env-driven page variant's `runtimeUrl`. -/
structure AppConfig where
  routeRemoteTargets : List String
  layoutKit : CopilotKitProps
  envPageKit : CopilotKitProps
  proxyPageKit : CopilotKitProps
deriving DecidableEq, Repr

/-- The application's configuration under a given environment. -/
def appConfig (env : Env) : AppConfig :=
  { routeRemoteTargets := runtime.agents.map fun p => p.2.url
    layoutKit := RootLayout.copilotKitProps
    envPageKit := EnvPage.copilotKitProps env
    proxyPageKit := ProxyPage.copilotKitProps }

/-! ## Client-side chat lifecycle (modelled from the spec) -/

/-- An event in the chat page's client-side lifecycle. -/
inductive ChatEvent where
  | render
  | suggestionClick (s : Suggestion)
  | userSubmit (text : String)
deriving DecidableEq, Repr

/-- Whether an event submits a first message: the user typing one, or a
suggestion click. -/
def ChatEvent.isSubmit : ChatEvent → Bool
  | .render => false
  | .suggestionClick _ => true
  | .userSubmit _ => true

/-- Modelled from the spec: the chat UI component (`CopilotChat` of
`@copilotkit/react-ui`, external library code absent from this repository)
issues a network call to the configured runtime URL only when a message is
submitted — by the user typing one or by a suggestion click; rendering alone
issues none. -/
def clientCallsOf (runtimeUrl : Option String) : ChatEvent → List OutboundCall
  | .render => []
  | .suggestionClick s => [{ url := runtimeUrl.getD "", payload := s.message }]
  | .userSubmit t => [{ url := runtimeUrl.getD "", payload := t }]

/-- The network calls issued over a client-side event trace. -/
def clientTraceCalls (runtimeUrl : Option String) (events : List ChatEvent) :
    List OutboundCall :=
  (events.map (clientCallsOf runtimeUrl)).flatten

/-! ## Claims -/

/-- C1: For the root layout and every page-variant component, the agent
identifier passed to the client-side `CopilotKit` provider equals the key
registered in the server-side agent map; both are the string `"my_agent"`. -/
theorem client_agent_matches_server_key :
    RootLayout.copilotKitProps.agent = "my_agent" ∧
    (∀ env : Env, (EnvPage.copilotKitProps env).agent = "my_agent") ∧
    ProxyPage.copilotKitProps.agent = "my_agent" ∧
    runtime.agents.map Prod.fst = ["my_agent"] :=
  ⟨rfl, fun _ => rfl, rfl, rfl⟩

/-- C2: The server-side agent registration maps exactly one identifier,
`"my_agent"`, to the fixed HTTPS URL `https://adkbotbackend.onrender.com`; the
mapping is created once at module load from a literal constant, and the `POST`
handler — the module's only operation — returns the module state unchanged on
every request. -/
theorem agent_registration_single_and_immutable :
    initialModuleState.runtime.agents =
      [("my_agent", { url := "https://adkbotbackend.onrender.com" })] ∧
    ∀ (st : ModuleState) (remote : String → String → ExternalOutcome)
      (req : NextRequest), (POSTst st remote req).2 = st :=
  ⟨rfl, fun _ _ _ => rfl⟩

/-- C3: For every inbound request, `POST` results in exactly one outbound call,
whose target is the configured remote URL `https://adkbotbackend.onrender.com`
and whose payload is the inbound request's payload, unmutated. -/
theorem post_one_outbound_call_no_mutation
    (remote : String → String → ExternalOutcome) (req : NextRequest) :
    (POST remote req).2 =
      [{ url := "https://adkbotbackend.onrender.com", payload := req.payload }] :=
  rfl

/-- C4: For every inbound request, `POST` returns exactly the value produced by
the external runtime's `handleRequest` applied to the unmodified request — no
validation, transformation, retry, or error translation — and any failure the
external runtime produces propagates to the caller unchanged. -/
theorem post_returns_external_result_errors_propagate
    (remote : String → String → ExternalOutcome) (req : NextRequest) :
    POST remote req =
      handleRequest runtime serviceAdapter "/api/copilotkit" remote req ∧
    ∀ e : String,
      remote "https://adkbotbackend.onrender.com" req.payload = .failure e →
      (POST remote req).1 = .failure e :=
  ⟨rfl, fun _ h => h⟩

/-- Witness for C4: with a remote that fails with `"boom"`, `POST` returns that
very failure. -/
theorem post_returns_external_result_errors_propagate_witness :
    (POST (fun _ _ => .failure "boom") { payload := "hello" }).1 =
      .failure "boom" :=
  (post_returns_external_result_errors_propagate
    (fun _ _ => .failure "boom") { payload := "hello" }).2 "boom" rfl

/-- C5: The suggestion list passed to the chat UI by each page variant contains
exactly the two configured entries, in the configured order, and every entry's
title equals its message. -/
theorem suggestions_two_entries_titles_equal_messages :
    EnvPage.copilotChatProps.suggestions =
      [ { title := "Find CCN for Bayonne Medical Center"
          message := "Find CCN for Bayonne Medical Center" },
        { title := "Find hospital type for 1104144641"
          message := "Find hospital type for 1104144641" } ] ∧
    ProxyPage.copilotChatProps.suggestions = EnvPage.copilotChatProps.suggestions ∧
    EnvPage.copilotChatProps.suggestions.all
      (fun s => s.title == s.message) = true ∧
    ProxyPage.copilotChatProps.suggestions.all
      (fun s => s.title == s.message) = true :=
  ⟨rfl, rfl, rfl, rfl⟩

/-- C6: For any two environments, the proxy route's remote target and the
proxy-path page variant's runtime URL are equal in both runs (and so is the
root layout's), while the env-driven page variant's runtime URL differs exactly
when the environment-supplied base URL differs. -/
theorem env_change_affects_only_env_page
    (e1 e2 : Env) :
    (appConfig e1).routeRemoteTargets = (appConfig e2).routeRemoteTargets ∧
    (appConfig e1).proxyPageKit.runtimeUrl = (appConfig e2).proxyPageKit.runtimeUrl ∧
    (appConfig e1).layoutKit.runtimeUrl = (appConfig e2).layoutKit.runtimeUrl ∧
    ((appConfig e1).envPageKit.runtimeUrl = (appConfig e2).envPageKit.runtimeUrl ↔
      e1.NEXT_PUBLIC_API_BASE_URL = e2.NEXT_PUBLIC_API_BASE_URL) :=
  ⟨rfl, rfl, rfl, Iff.rfl⟩

/-- C7 counterexample: the env-driven page variant does not hard-code an
`onrender.com` origin as its target — its target is whatever the environment
supplies.  Under an environment where `NEXT_PUBLIC_API_BASE_URL` is
`"http://localhost:9999"` its runtime URL is `"http://localhost:9999"`, which
is not the `onrender.com` origin the server route targets, and under an
environment where the variable is unset its runtime URL is `none`: the two
runs disagree, so the target is not a fixed hard-coded URL. -/
theorem env_page_target_not_hardcoded :
    (EnvPage.copilotKitProps
        { NEXT_PUBLIC_API_BASE_URL := some "http://localhost:9999" }).runtimeUrl =
      some "http://localhost:9999" ∧
    (EnvPage.copilotKitProps { NEXT_PUBLIC_API_BASE_URL := none }).runtimeUrl =
      none ∧
    (EnvPage.copilotKitProps
        { NEXT_PUBLIC_API_BASE_URL := some "http://localhost:9999" }).runtimeUrl ≠
      some "https://adkbotbackend.onrender.com" ∧
    (EnvPage.copilotKitProps
        { NEXT_PUBLIC_API_BASE_URL := some "http://localhost:9999" }).runtimeUrl ≠
      (EnvPage.copilotKitProps { NEXT_PUBLIC_API_BASE_URL := none }).runtimeUrl :=
  ⟨rfl, rfl, by decide, by decide⟩

/-- C7 amended: two nearly-duplicate presentation components exist — they pass
the same agent identifier and identical `CopilotChat` props — with divergent
target URLs: one hard-codes the relative proxy path `"/api/copilotkit"`, while
the other takes its target from the environment variable
`NEXT_PUBLIC_API_BASE_URL` rather than hard-coding a URL (the external
`onrender.com` origin is hard-coded only in the server-side proxy route). -/
theorem page_variants_divergent_targets :
    ProxyPage.copilotKitProps.runtimeUrl = some "/api/copilotkit" ∧
    (∀ env : Env,
      (EnvPage.copilotKitProps env).runtimeUrl = env.NEXT_PUBLIC_API_BASE_URL) ∧
    EnvPage.copilotChatProps = ProxyPage.copilotChatProps ∧
    (∀ env : Env,
      (EnvPage.copilotKitProps env).agent = ProxyPage.copilotKitProps.agent) ∧
    runtime.agents.map (fun p => p.2.url) = ["https://adkbotbackend.onrender.com"] :=
  ⟨rfl, fun _ => rfl, rfl, fun _ => rfl, rfl⟩

/-- C8: In each page variant's `Chat` component, the only local state is the
background value, initialized to `"var(--copilot-kit-background-color)"`; since
neither component registers any state-updating callback, the background equals
its initial value after any sequence of updates drawn from the registered
updaters. -/
theorem chat_background_never_changes
    (fs : List (String → String))
    (h : ∀ f ∈ fs, f ∈ EnvPage.backgroundUpdaters ∨ f ∈ ProxyPage.backgroundUpdaters) :
    EnvPage.chatBackgroundInit = "var(--copilot-kit-background-color)" ∧
    ProxyPage.chatBackgroundInit = "var(--copilot-kit-background-color)" ∧
    fs.foldl (fun s f => f s) EnvPage.chatBackgroundInit =
      EnvPage.chatBackgroundInit ∧
    fs.foldl (fun s f => f s) ProxyPage.chatBackgroundInit =
      ProxyPage.chatBackgroundInit := by
  have hnil : fs = [] := by
    cases fs with
    | nil => rfl
    | cons f rest =>
        rcases h f (List.mem_cons_self f rest) with hf | hf <;> simp_all [EnvPage.backgroundUpdaters, ProxyPage.backgroundUpdaters]
  subst hnil
  exact ⟨rfl, rfl, rfl, rfl⟩

/-- Witness for C8: instantiated at the empty update sequence. -/
theorem chat_background_never_changes_witness :
    ([] : List (String → String)).foldl (fun s f => f s)
        EnvPage.chatBackgroundInit = EnvPage.chatBackgroundInit :=
  (chat_background_never_changes [] (by simp)).2.2.1

/-- C9: No network call is made by the chat page before a first message is
submitted: a client-side event trace containing no submit event (neither a user
message nor a suggestion click) issues no outbound calls, for any runtime
URL. -/
theorem no_network_call_before_first_submit
    (runtimeUrl : Option String) (events : List ChatEvent)
    (h : ∀ e ∈ events, e.isSubmit = false) :
    clientTraceCalls runtimeUrl events = [] := by
  induction events with
  | nil => rfl
  | cons e rest ih =>
      have he : e.isSubmit = false := h e (List.mem_cons_self e rest)
      have hrest : ∀ x ∈ rest, ChatEvent.isSubmit x = false :=
        fun x hx => h x (List.mem_cons_of_mem e hx)
      cases e with
      | render =>
          simpa [clientTraceCalls, clientCallsOf] using ih hrest
      | suggestionClick s => simp [ChatEvent.isSubmit] at he
      | userSubmit t => simp [ChatEvent.isSubmit] at he

/-- Witness for C9: a render-only trace against the proxy-path runtime URL
issues no calls. -/
theorem no_network_call_before_first_submit_witness :
    clientTraceCalls (some "/api/copilotkit") [ChatEvent.render, ChatEvent.render] = [] :=
  no_network_call_before_first_submit (some "/api/copilotkit")
    [ChatEvent.render, ChatEvent.render] (by decide)

/-- C10: The two page variants pass pointwise equal configuration to the chat
provider and chat component — the same agent identifier `"my_agent"`, the same
`showDevConsole` value, equal initial label text, the same class names, and
element-wise equal suggestion lists — and differ only in the `runtimeUrl` value
(environment-supplied in one, the literal `"/api/copilotkit"` in the other)
plus a cosmetic caption element. -/
theorem page_variants_equal_except_runtime_url_and_caption (env : Env) :
    (EnvPage.copilotKitProps env).agent = ProxyPage.copilotKitProps.agent ∧
    (EnvPage.copilotKitProps env).agent = "my_agent" ∧
    (EnvPage.copilotKitProps env).showDevConsole =
      ProxyPage.copilotKitProps.showDevConsole ∧
    EnvPage.copilotChatProps = ProxyPage.copilotChatProps ∧
    EnvPage.chatBackgroundInit = ProxyPage.chatBackgroundInit ∧
    (EnvPage.copilotKitProps env).runtimeUrl = env.NEXT_PUBLIC_API_BASE_URL ∧
    ProxyPage.copilotKitProps.runtimeUrl = some "/api/copilotkit" ∧
    EnvPage.captionText = some "Sample suggestions:" ∧
    ProxyPage.captionText = none :=
  ⟨rfl, rfl, rfl, rfl, rfl, rfl, rfl, rfl, rfl⟩

end ADKbot
